import Mathlib

/-!
Verification of the MetaGrid measurement harness (Testing/Latency,
Testing/Failure, Testing/StartupTime) against its natural-language
specification.  The Go source is shallowly embedded: each HTTP exchange,
clock sample and external command invocation is an explicit value or an
entry of an effect trace, and the functions below mirror the Go control
flow line by line.
-/

/- ## Load Generator (Testing/Latency/main.go, testServices) -/

/-- A service endpoint under load test (Go struct Service in Latency). -/
structure LoadService where
  name : String
  url : String
deriving DecidableEq, Repr

/-- The observable outcome of one HTTP GET issued by a load goroutine:
the moment the request started (seconds), the measured latency, and the
response, with none standing for a transport error and some s for a
response with status code s. -/
structure ReqOutcome where
  startAt : ℚ
  latency : ℚ
  response : Option Nat
deriving DecidableEq, Repr

/-- Go struct TestResult: one CSV row per issued request. -/
structure TestResult where
  serviceName : String
  requestTime : ℚ
  latency : ℚ
  success : Bool
  concurrentGroup : Nat
deriving DecidableEq, Repr

/-- The rows produced by the inner for-loop of testServices for one
service: concurrency goroutines, each recording start time, latency,
success (status code exactly 200) and the group, which the Go code passes
as the closure argument group := concurrency. -/
def requestRows (s : LoadService) (si : Nat) (concurrency : Nat)
    (outcome : Nat → Nat → ReqOutcome) : List TestResult :=
  (List.range concurrency).map fun i =>
    let o := outcome si i
    { serviceName := s.name
      requestTime := o.startAt
      latency := o.latency
      success := o.response == some 200
      concurrentGroup := concurrency }

/-- The outer for-loop of testServices over the service list, threading
the service index used to look up each request's outcome. -/
def testServicesAux (concurrency : Nat) (outcome : Nat → Nat → ReqOutcome) :
    List LoadService → Nat → List TestResult
  | [], _ => []
  | s :: rest, si =>
      requestRows s si concurrency outcome ++
        testServicesAux concurrency outcome rest (si + 1)

/-- testServices: fans out concurrency requests per service, waits for
all of them (sync.WaitGroup), then drains the channel and writes one CSV
row per result.  The returned list is the multiset of written rows; the
Go channel delivers them in an unspecified order, which does not affect
the row count or any per-row field. -/
def testServices (services : List LoadService) (concurrency : Nat)
    (outcome : Nat → Nat → ReqOutcome) : List TestResult :=
  testServicesAux concurrency outcome services 0

/- ## Discovery Client (isConsulServiceHealthy, identical in
Testing/Failure/main.go and Testing/StartupTime/main.go) -/

/-- The dynamic type of the Status field of one Consul check object:
either a JSON string or a value of any other JSON type (on which the Go
type assertion .(string) fails). -/
inductive StatusVal where
  | str (s : String)
  | nonString
deriving DecidableEq, Repr

/-- One entry of the decoded health-check list; only the Status key is
ever read, and none models an object without that key (the Go map lookup
returns nil and the type assertion fails). -/
structure CheckEntry where
  status : Option StatusVal
deriving DecidableEq, Repr

/-- What reading and decoding the response body can yield: a read error,
a body that json.Unmarshal rejects (none), or a decoded list of check
objects (some checks). -/
inductive BodyResult where
  | readErr
  | content (parsed : Option (List CheckEntry))
deriving DecidableEq, Repr

/-- The observable outcome of the GET to /v1/health/checks/key: a
transport error, or a response with its status code and body. -/
inductive ConsulResponse where
  | netErr
  | resp (status : Nat) (body : BodyResult)
deriving DecidableEq, Repr

/-- The per-entry test of the Go loop body: the type assertion
check["Status"].(string) must succeed and the string must equal
"passing". -/
def checkPassing (c : CheckEntry) : Bool :=
  match c.status with
  | some (.str s) => s == "passing"
  | _ => false

/-- isConsulServiceHealthy: false on transport error, non-200 status,
body read error, undecodable payload or empty list; otherwise true iff
every entry passes checkPassing (the Go loop returns false at the first
failing entry and true after the loop). -/
def isConsulServiceHealthy (r : ConsulResponse) : Bool :=
  match r with
  | .netErr => false
  | .resp status body =>
    if status = 200 then
      match body with
      | .readErr => false
      | .content none => false
      | .content (some checks) =>
        if checks = [] then false
        else checks.all checkPassing
    else false

/- ## Readiness Monitor (measureDetailedStartupTime, loop at
Testing/Failure/main.go lines 156-189 and Testing/StartupTime/main.go
lines 157-191; the two loop bodies are line-for-line identical) -/

/-- The environment a readiness cycle observes, indexed by tick number:
whether the Consul health-check query and the application health probe
succeed at each tick, and the value time.Since(startTime).Seconds()
returns at each of the three moments it is sampled during tick t (at the
Consul recording, at the health recording, and at the successful
return).  A real monotone clock satisfies the ordering hypotheses used
in the theorems below. -/
structure ReadinessTicks where
  consulOk : Nat → Bool
  healthOk : Nat → Bool
  consulElapsed : Nat → ℚ
  healthElapsed : Nat → ℚ
  totalElapsed : Nat → ℚ

/-- What a readiness cycle returns on success: the two recorded
time-to-first-pass values, the elapsed time sampled at the successful
return, and the consulReady flag as returned by the Go function. -/
structure ReadinessOutcome where
  consulTime : ℚ
  healthTime : ℚ
  totalTime : ℚ
  consulReadyFlag : Bool
deriving DecidableEq, Repr

/-- The error the Go loop returns when the 2-minute timeout channel
fires before both flags are set. -/
def timeoutMessage : String := "service did not start within the timeout period"

/-- The polling interval of the readiness loop, seconds
(time.NewTicker(1 * time.Second)). -/
def readinessTickSeconds : Nat := 1

/-- The readiness window, seconds (time.After(2 * time.Minute)). -/
def readinessTimeoutSeconds : Nat := 120

/-- The select loop of measureDetailedStartupTime.  fuel is the number
of ticker events the 2-minute timeout channel still allows (about
readinessTimeoutSeconds / readinessTickSeconds); when it reaches zero
the timeout case of the select fires.  t is the current tick index, and
the four accumulators mirror the Go locals: each flag is polled only
while still false, and its elapsed time is recorded at its first
success.  The loop returns as soon as both flags are true, sampling the
clock once more for the total. -/
def readinessLoop (tk : ReadinessTicks) :
    Nat → Nat → Bool → ℚ → Bool → ℚ → Except String ReadinessOutcome
  | 0, _, _, _, _, _ => .error timeoutMessage
  | fuel + 1, t, cR, cT, hR, hT =>
    let cR2 := if cR then true else tk.consulOk t
    let cT2 := if cR then cT
      else if tk.consulOk t then tk.consulElapsed t else cT
    let hR2 := if hR then true else tk.healthOk t
    let hT2 := if hR then hT
      else if tk.healthOk t then tk.healthElapsed t else hT
    if cR2 && hR2 then
      .ok ⟨cT2, hT2, tk.totalElapsed t, cR2⟩
    else
      readinessLoop tk fuel (t + 1) cR2 cT2 hR2 hT2

/-- tc is the first tick at or after t at which f passes. -/
def firstPassFrom (f : Nat → Bool) (t tc : Nat) : Prop :=
  t ≤ tc ∧ f tc = true ∧ ∀ u, t ≤ u → u < tc → f u = false

/-- The environment of one StartupTime measurement: whether os.Chdir
and the docker-compose up command succeed, the elapsed time sampled
right after the up command returns, the tick environment of the
readiness loop, and the number of ticks the timeout window allows.  The
docker-compose down that precedes the up only logs a warning on
failure, so its outcome does not appear. -/
structure StartupEnv where
  chdirOk : Bool
  upOk : Bool
  containerStartElapsed : ℚ
  ticks : ReadinessTicks
  fuel : Nat

/-- measureDetailedStartupTime (Testing/StartupTime/main.go lines
130-191): chdir into the service directory, stop (warning only), start,
sample containerStartTime, then run the readiness loop; on success
return totalStartupTime, consulCheckTime, healthCheckTime, the
consulReady flag and containerStartTime. -/
def measureDetailedStartupTime (env : StartupEnv) :
    Except String (ℚ × ℚ × ℚ × Bool × ℚ) :=
  if env.chdirOk = false then .error "failed to change directory"
  else if env.upOk = false then .error "failed to start service"
  else
    match readinessLoop env.ticks env.fuel 0 false 0 false 0 with
    | .error e => .error e
    | .ok r =>
        .ok (r.totalTime, r.consulTime, r.healthTime, r.consulReadyFlag,
          env.containerStartElapsed)

/-- Concrete tick environment used to witness the readiness theorems:
Consul first passes at tick 1, the health probe at tick 2, and the
clock samples read 3, 4 and 5 seconds. -/
def witnessTicks : ReadinessTicks where
  consulOk := fun t => decide (1 ≤ t)
  healthOk := fun t => decide (2 ≤ t)
  consulElapsed := fun _ => 3
  healthElapsed := fun _ => 4
  totalElapsed := fun _ => 5

/-- Concrete startup environment used to witness the timing-consistency
theorem: everything succeeds at the first tick. -/
def witnessStartupEnv : StartupEnv where
  chdirOk := true
  upOk := true
  containerStartElapsed := 0
  ticks :=
    { consulOk := fun _ => true
      healthOk := fun _ => true
      consulElapsed := fun _ => 1
      healthElapsed := fun _ => 1
      totalElapsed := fun _ => 2 }
  fuel := 3

/- ## Health Probe client timeouts (isServiceHealthy) -/

/-- HTTP client timeout of isServiceHealthy in the Failure harness,
seconds (http.Client{Timeout: 1 * time.Second}). -/
def failureHealthClientTimeoutSeconds : Nat := 1

/-- HTTP client timeout of isServiceHealthy in the StartupTime harness,
seconds (http.Client{Timeout: 5 * time.Second}). -/
def startupHealthClientTimeoutSeconds : Nat := 5

/-- Polling tick of the Failure harness readiness loop, seconds
(time.NewTicker(1 * time.Second)). -/
def failurePollTickSeconds : Nat := 1

/-- Polling tick of the StartupTime harness readiness loop, seconds
(time.NewTicker(1 * time.Second)). -/
def startupPollTickSeconds : Nat := 1

/- ## Lifecycle Controller effect traces (Failure harness) -/

/-- The process-level effects the Failure harness measurement and
shutdown paths perform: changing the process working directory
(os.Chdir), sleeping, running an external command (with the directory
set explicitly on the command via cmd.Dir, or not), and sampling
startTime (startTime := time.Now()), which starts the measurement
clock. -/
inductive LifecycleEffect where
  | chdir (dir : String)
  | sleep (seconds : Nat)
  | run (args : List String) (explicitDir : Option String)
  | clockStart
deriving DecidableEq, Repr

/-- Argument vector of docker-compose up -d. -/
def composeUp : List String := ["docker-compose", "up", "-d"]

/-- Argument vector of docker-compose down. -/
def composeDown : List String := ["docker-compose", "down"]

/-- Argument vector of docker-compose up -d --scale name=1. -/
def composeUpScale (name : String) : List String :=
  ["docker-compose", "up", "-d", "--scale", name ++ "=1"]

/-- measureDetailedStartupTime of the Failure harness (lines 130-189)
as its trace of process-level effects, in program order: chdir into the
service directory, sleep 5 seconds, run the plain up with no explicit
directory on the command, sample startTime (clockStart), run the scaled
up, run the readiness loop (which issues no lifecycle commands), and on
every exit path chdir back through the deferred handler.  chdirOk and
upOk select the error-truncated paths: a failed chdir returns before
the deferred handler is installed, a failed up returns through it. -/
def measureFailureEffects (name dir cur : String) (chdirOk upOk : Bool) :
    List LifecycleEffect :=
  if chdirOk = false then []
  else if upOk = false then
    [.chdir dir, .sleep 5, .run composeUp none, .chdir cur]
  else
    [.chdir dir, .sleep 5, .run composeUp none, .clockStart,
      .run (composeUpScale name) none, .chdir cur]

/-- shutdownAllServices as its effect trace: one docker-compose down
per directory, the directory passed explicitly on the command
(cmd.Dir = dir), with no change to the process working directory. -/
def shutdownAllServicesEffects (dirs : List String) : List LifecycleEffect :=
  dirs.map fun d => .run composeDown (some d)

/-- An effect that either is not a command, or is a command carrying
its working directory explicitly. -/
def runsWithExplicitDir : LifecycleEffect → Bool
  | .run _ d => d.isSome
  | _ => true

/-- An os.Chdir effect (process-wide working-directory mutation). -/
def isChdirEffect : LifecycleEffect → Bool
  | .chdir _ => true
  | _ => false

/-- A command whose docker-compose subcommand is down or stop. -/
def isStopOrDownCmd : LifecycleEffect → Bool
  | .run args _ => args[1]? == some "down" || args[1]? == some "stop"
  | _ => false

/-- A command whose docker-compose subcommand is up. -/
def isUpCmd : LifecycleEffect → Bool
  | .run args _ => args[1]? == some "up"
  | _ => false

/-- Any external command invocation. -/
def isRunEffect : LifecycleEffect → Bool
  | .run _ _ => true
  | _ => false

/- ## Run Orchestrator (main of the Failure and StartupTime harnesses) -/

/-- Outcome of the pre-flight GET /v1/status/leader: none is a
transport error, some s a response with status code s.  The Go fatal
condition is err != nil || resp.StatusCode != http.StatusOK, on which
log.Fatalf exits the process with code 1. -/
def preflightFails (c : Option Nat) : Bool :=
  match c with
  | none => true
  | some s => decide (s ≠ 200)

/-- The externally visible steps of main after the pre-flight check:
resolving the service directory tree, creating a trial's report file,
writing that trial's measurement rows, and shutting all services down
at the end of a trial. -/
inductive MainEffect where
  | resolveDirs
  | createReport (trial : Nat)
  | trialRows (trial : Nat)
  | shutdownAll (trial : Nat)
deriving DecidableEq, Repr

/-- The number of trial iterations (for i := 1; i <= 5; i++). -/
def numTrials : Nat := 5

/-- The trial loop of main: each iteration calls os.Create for its
report file, whose success createOk i gives.  On failure main returns
at once — no row of that trial is written and no later trial runs;
otherwise the trial's rows are written and all services shut down
before the next iteration. -/
def trialLoopEffects : Nat → Nat → (Nat → Bool) → List MainEffect
  | 0, _, _ => []
  | k + 1, i, createOk =>
    if createOk i then
      .createReport i :: .trialRows i :: .shutdownAll i ::
        trialLoopEffects k (i + 1) createOk
    else []

/-- main from the Consul pre-flight on, as exit code and effect list: a
failing pre-flight is fatal with exit code 1 before any directory is
resolved, any lifecycle command runs or any report file is created;
otherwise the service directories are resolved (a resolver error
returns with nothing further done) and the numTrials trials run. -/
def mainEffects (consul : Option Nat) (resolveOk : Bool)
    (createOk : Nat → Bool) : Nat × List MainEffect :=
  if preflightFails consul then (1, [])
  else if resolveOk = false then (0, [.resolveDirs])
  else (0, .resolveDirs :: trialLoopEffects numTrials 1 createOk)

/- ## Theorems -/

theorem testServicesAux_length (concurrency : Nat)
    (outcome : Nat → Nat → ReqOutcome) :
    ∀ (services : List LoadService) (si : Nat),
      (testServicesAux concurrency outcome services si).length =
        concurrency * services.length := by
  intro services
  induction services with
  | nil => intro si; simp [testServicesAux]
  | cons s rest ih =>
      intro si
      simp [testServicesAux, requestRows, ih, Nat.mul_succ, Nat.add_comm]

/-- C1: a Load Generator batch (testServices) at stress level N over a
non-empty list of M endpoints issues exactly N×M requests, waits for all
of them, and writes exactly N×M result rows, one per issued request,
whatever each request's outcome is. -/
theorem loadBatch_row_count (services : List LoadService)
    (concurrency : Nat) (outcome : Nat → Nat → ReqOutcome)
    (_hne : services ≠ []) :
    (testServices services concurrency outcome).length =
      concurrency * services.length := by
  exact testServicesAux_length concurrency outcome services 0

/-- Witness for C1 at a concrete batch: 2 endpoints at concurrency 3,
every request failing, still yields 6 rows. -/
theorem loadBatch_row_count_witness :
    (testServices [⟨"Weather Service", "http://weather.localhost/health"⟩,
        ⟨"Parking Service", "http://parking.localhost/health"⟩] 3
        (fun _ _ => ⟨0, 1, none⟩)).length = 3 * 2 :=
  loadBatch_row_count _ 3 _ (by decide)

theorem testServicesAux_group (concurrency : Nat)
    (outcome : Nat → Nat → ReqOutcome) :
    ∀ (services : List LoadService) (si : Nat) (r : TestResult),
      r ∈ testServicesAux concurrency outcome services si →
        r.concurrentGroup = concurrency := by
  intro services
  induction services with
  | nil => intro si r hr; simp [testServicesAux] at hr
  | cons s rest ih =>
      intro si r hr
      simp only [testServicesAux, List.mem_append] at hr
      rcases hr with hr | hr
      · simp only [requestRows, List.mem_map, List.mem_range] at hr
        obtain ⟨i, _, hi⟩ := hr
        subst hi
        rfl
      · exact ih (si + 1) r hr

/-- C6: every result row of a testServices batch carries
concurrentGroup equal to the stress level that was active when the
request was issued (the Go goroutine closure receives group :=
concurrency). -/
theorem loadBatch_group_is_stress_level (services : List LoadService)
    (concurrency : Nat) (outcome : Nat → Nat → ReqOutcome)
    (r : TestResult) (hr : r ∈ testServices services concurrency outcome) :
    r.concurrentGroup = concurrency :=
  testServicesAux_group concurrency outcome services 0 r hr

/-- Witness for C6: the first row of a concrete batch at concurrency 2
carries group 2. -/
theorem loadBatch_group_witness :
    (⟨"Weather Service", 0, 1, true, 2⟩ : TestResult).concurrentGroup = 2 :=
  loadBatch_group_is_stress_level
    [⟨"Weather Service", "http://weather.localhost/health"⟩] 2
    (fun _ _ => ⟨0, 1, some 200⟩) _ (by decide)

theorem checkPassing_iff (c : CheckEntry) :
    checkPassing c = true ↔ c.status = some (.str "passing") := by
  cases c with
  | mk st =>
      cases st with
      | none => simp [checkPassing]
      | some v =>
          cases v with
          | str s => simp [checkPassing]
          | nonString => simp [checkPassing]

/-- C3: isConsulServiceHealthy returns true iff the HTTP exchange
produced a 200 response whose body decoded to a non-empty list of checks
in which every entry has a string Status field equal exactly to
"passing"; every other outcome (transport error, non-200, read error,
undecodable payload, empty list, non-string status) yields false.  The
Lean function is total, mirroring that the Go function never panics. -/
theorem isConsulServiceHealthy_iff (r : ConsulResponse) :
    isConsulServiceHealthy r = true ↔
      ∃ checks : List CheckEntry,
        r = .resp 200 (.content (some checks)) ∧ checks ≠ [] ∧
          ∀ c ∈ checks, c.status = some (.str "passing") := by
  cases r with
  | netErr => simp [isConsulServiceHealthy]
  | resp status body =>
      by_cases hs : status = 200
      · subst hs
        cases body with
        | readErr => simp [isConsulServiceHealthy]
        | content parsed =>
            cases parsed with
            | none => simp [isConsulServiceHealthy]
            | some checks =>
                by_cases hnil : checks = []
                · subst hnil
                  simp [isConsulServiceHealthy]
                · constructor
                  · intro h
                    simp [isConsulServiceHealthy, hnil,
                      List.all_eq_true] at h
                    exact ⟨checks, rfl, hnil,
                      fun c hc => (checkPassing_iff c).mp (h c hc)⟩
                  · rintro ⟨cs, heq, -, hall⟩
                    have hcs : checks = cs := by
                      injection heq with h1 h2
                      injection h2 with h3
                      injection h3
                    subst hcs
                    simp [isConsulServiceHealthy, hnil, List.all_eq_true]
                    intro c hc
                    exact (checkPassing_iff c).mpr (hall c hc)
      · constructor
        · intro h
          simp [isConsulServiceHealthy, hs] at h
        · rintro ⟨cs, heq, -, -⟩
          injection heq with h1 _
          exact absurd h1 hs

theorem firstPassFrom_extend {f : Nat → Bool} {t tc : Nat}
    (hf : f t = false) (h : firstPassFrom f (t + 1) tc) :
    firstPassFrom f t tc := by
  obtain ⟨h1, h2, h3⟩ := h
  refine ⟨by omega, h2, ?_⟩
  intro u hu1 hu2
  rcases Nat.eq_or_lt_of_le hu1 with rfl | hlt
  · exact hf
  · exact h3 u hlt hu2


theorem readinessLoop_dichotomy (tk : ReadinessTicks) :
    ∀ (fuel t : Nat) (cR : Bool) (cT : ℚ) (hR : Bool) (hT : ℚ),
      (∃ r, readinessLoop tk fuel t cR cT hR hT = .ok r) ∨
        readinessLoop tk fuel t cR cT hR hT = .error timeoutMessage := by
  intro fuel
  induction fuel with
  | zero => intro t cR cT hR hT; right; rfl
  | succ fuel ih =>
      intro t cR cT hR hT
      simp only [readinessLoop]
      by_cases hcond :
          ((if cR = true then true else tk.consulOk t) &&
            (if hR = true then true else tk.healthOk t)) = true
      · rw [if_pos hcond]
        exact Or.inl ⟨_, rfl⟩
      · rw [if_neg hcond]
        exact ih (t + 1) _ _ _ _

theorem readinessLoop_ok_health (tk : ReadinessTicks) :
    ∀ (fuel t : Nat) (cT hT : ℚ) (r : ReadinessOutcome),
      readinessLoop tk fuel t true cT false hT = .ok r →
      r.consulTime = cT ∧ r.consulReadyFlag = true ∧
        ∃ th, firstPassFrom tk.healthOk t th ∧
          r.healthTime = tk.healthElapsed th ∧
          r.totalTime = tk.totalElapsed th ∧ th < t + fuel := by
  intro fuel
  induction fuel with
  | zero =>
      intro t cT hT r h
      simp [readinessLoop] at h
  | succ fuel ih =>
      intro t cT hT r h
      cases hh : tk.healthOk t with
      | true =>
          simp [readinessLoop, hh] at h
          subst h
          exact ⟨rfl, rfl, t, ⟨Nat.le_refl t, hh, fun u hu1 hu2 => by omega⟩,
            rfl, rfl, by omega⟩
      | false =>
          simp only [readinessLoop, hh] at h
          simp at h
          obtain ⟨h1, h2, th, hfp, h3, h4, h5⟩ := ih (t + 1) cT hT r h
          exact ⟨h1, h2, th, firstPassFrom_extend hh hfp, h3, h4, by omega⟩

theorem readinessLoop_ok_consul (tk : ReadinessTicks) :
    ∀ (fuel t : Nat) (cT hT : ℚ) (r : ReadinessOutcome),
      readinessLoop tk fuel t false cT true hT = .ok r →
      r.healthTime = hT ∧ r.consulReadyFlag = true ∧
        ∃ tc, firstPassFrom tk.consulOk t tc ∧
          r.consulTime = tk.consulElapsed tc ∧
          r.totalTime = tk.totalElapsed tc ∧ tc < t + fuel := by
  intro fuel
  induction fuel with
  | zero =>
      intro t cT hT r h
      simp [readinessLoop] at h
  | succ fuel ih =>
      intro t cT hT r h
      cases hc : tk.consulOk t with
      | true =>
          simp [readinessLoop, hc] at h
          subst h
          exact ⟨rfl, rfl, t, ⟨Nat.le_refl t, hc, fun u hu1 hu2 => by omega⟩,
            rfl, rfl, by omega⟩
      | false =>
          simp only [readinessLoop, hc] at h
          simp at h
          obtain ⟨h1, h2, tc, hfp, h3, h4, h5⟩ := ih (t + 1) cT hT r h
          exact ⟨h1, h2, tc, firstPassFrom_extend hc hfp, h3, h4, by omega⟩

theorem readinessLoop_ok_spec (tk : ReadinessTicks) :
    ∀ (fuel t : Nat) (cT hT : ℚ) (r : ReadinessOutcome),
      readinessLoop tk fuel t false cT false hT = .ok r →
      ∃ tc th, firstPassFrom tk.consulOk t tc ∧
        firstPassFrom tk.healthOk t th ∧
        r.consulTime = tk.consulElapsed tc ∧
        r.healthTime = tk.healthElapsed th ∧
        r.totalTime = tk.totalElapsed (max tc th) ∧
        r.consulReadyFlag = true ∧ max tc th < t + fuel := by
  intro fuel
  induction fuel with
  | zero =>
      intro t cT hT r h
      simp [readinessLoop] at h
  | succ fuel ih =>
      intro t cT hT r h
      cases hc : tk.consulOk t with
      | true =>
          cases hh : tk.healthOk t with
          | true =>
              simp [readinessLoop, hc, hh] at h
              subst h
              refine ⟨t, t, ⟨Nat.le_refl t, hc, fun u h1 h2 => by omega⟩,
                ⟨Nat.le_refl t, hh, fun u h1 h2 => by omega⟩,
                rfl, rfl, by simp, rfl, by omega⟩
          | false =>
              simp only [readinessLoop, hc, hh] at h
              simp at h
              obtain ⟨h1, h2, th, hfp, h3, h4, h5⟩ :=
                readinessLoop_ok_health tk fuel (t + 1) (tk.consulElapsed t)
                  hT r h
              have hth : t ≤ th := Nat.le_of_succ_le hfp.1
              refine ⟨t, th, ⟨Nat.le_refl t, hc, fun u hu1 hu2 => by omega⟩,
                firstPassFrom_extend hh hfp, h1, h3, ?_, h2, ?_⟩
              · rw [Nat.max_eq_right hth]; exact h4
              · rw [Nat.max_eq_right hth]; omega
      | false =>
          cases hh : tk.healthOk t with
          | true =>
              simp only [readinessLoop, hc, hh] at h
              simp at h
              obtain ⟨h1, h2, tc, hfp, h3, h4, h5⟩ :=
                readinessLoop_ok_consul tk fuel (t + 1) cT
                  (tk.healthElapsed t) r h
              have htc : t ≤ tc := Nat.le_of_succ_le hfp.1
              refine ⟨tc, t, firstPassFrom_extend hc hfp,
                ⟨Nat.le_refl t, hh, fun u hu1 hu2 => by omega⟩,
                h3, h1, ?_, h2, ?_⟩
              · rw [Nat.max_eq_left htc]; exact h4
              · rw [Nat.max_eq_left htc]; omega
          | false =>
              simp only [readinessLoop, hc, hh] at h
              simp at h
              obtain ⟨tc, th, hfc, hfh, h1, h2, h3, h4, h5⟩ :=
                ih (t + 1) cT hT r h
              exact ⟨tc, th, firstPassFrom_extend hc hfc,
                firstPassFrom_extend hh hfh, h1, h2, h3, h4, by omega⟩

/-- C2: a readiness cycle (the polling loop of
measureDetailedStartupTime, identical in the Failure and StartupTime
harnesses) terminates in exactly one of two outcomes: a successful
ReadinessOutcome, or the timeout error once the fixed 2-minute window
elapses (fuel counts the ticker events the window still allows, about
readinessTimeoutSeconds / readinessTickSeconds of them); and on success
the two flags were polled independently, each elapsed time having been
recorded at that flag's own first passing tick, with the loop returning
at the first tick at which both had passed. -/
theorem readinessCycle_two_outcomes (tk : ReadinessTicks) (fuel t0 : Nat) :
    ((∃ r, readinessLoop tk fuel t0 false 0 false 0 = .ok r) ∨
      readinessLoop tk fuel t0 false 0 false 0 = .error timeoutMessage) ∧
    (∀ r, readinessLoop tk fuel t0 false 0 false 0 = .ok r →
      ∃ tc th, firstPassFrom tk.consulOk t0 tc ∧
        firstPassFrom tk.healthOk t0 th ∧
        r.consulTime = tk.consulElapsed tc ∧
        r.healthTime = tk.healthElapsed th ∧
        r.totalTime = tk.totalElapsed (max tc th)) := by
  constructor
  · exact readinessLoop_dichotomy tk fuel t0 false 0 false 0
  · intro r h
    obtain ⟨tc, th, hfc, hfh, h1, h2, h3, -, -⟩ :=
      readinessLoop_ok_spec tk fuel t0 0 0 r h
    exact ⟨tc, th, hfc, hfh, h1, h2, h3⟩

/-- Witness for C2 at a concrete environment: Consul first passes at
tick 1 and the health probe at tick 2, so the cycle succeeds with the
recorded samples 3, 4 and 5. -/
theorem readinessCycle_two_outcomes_witness :
    ∃ tc th, firstPassFrom witnessTicks.consulOk 0 tc ∧
      firstPassFrom witnessTicks.healthOk 0 th ∧
      (⟨3, 4, 5, true⟩ : ReadinessOutcome).consulTime =
        witnessTicks.consulElapsed tc ∧
      (⟨3, 4, 5, true⟩ : ReadinessOutcome).healthTime =
        witnessTicks.healthElapsed th ∧
      (⟨3, 4, 5, true⟩ : ReadinessOutcome).totalTime =
        witnessTicks.totalElapsed (max tc th) :=
  (readinessCycle_two_outcomes witnessTicks 5 0).2 ⟨3, 4, 5, true⟩ rfl

/-- C10: whenever a StartupTime measurement succeeds, the recorded
containerStartTime, consulCheckTime and healthCheckTime are each
non-negative and bounded by totalStartupTime (all four are elapsed
times from the same start instant read off a monotone clock, the total
being sampled last), and the returned consulReady flag is true.  The
clock hypotheses state exactly that the elapsed-time samples are
non-negative and that a sample taken no later than another is bounded
by it. -/
theorem startupTimings_consistent (env : StartupEnv)
    (hcont0 : 0 ≤ env.containerStartElapsed)
    (hcont : ∀ t, env.containerStartElapsed ≤ env.ticks.totalElapsed t)
    (hc0 : ∀ t, 0 ≤ env.ticks.consulElapsed t)
    (hh0 : ∀ t, 0 ≤ env.ticks.healthElapsed t)
    (hcm : ∀ t u, t ≤ u → env.ticks.consulElapsed t ≤ env.ticks.totalElapsed u)
    (hhm : ∀ t u, t ≤ u → env.ticks.healthElapsed t ≤ env.ticks.totalElapsed u)
    (tot c h : ℚ) (rdy : Bool) (cont : ℚ)
    (hok : measureDetailedStartupTime env = .ok (tot, c, h, rdy, cont)) :
    0 ≤ cont ∧ 0 ≤ c ∧ 0 ≤ h ∧ cont ≤ tot ∧ c ≤ tot ∧ h ≤ tot ∧
      rdy = true := by
  unfold measureDetailedStartupTime at hok
  by_cases hch : env.chdirOk = false
  · simp [hch] at hok
  · by_cases hup : env.upOk = false
    · simp [hch, hup] at hok
    · simp only [hch, hup, if_false] at hok
      cases hloop : readinessLoop env.ticks env.fuel 0 false 0 false 0 with
      | error e =>
          rw [hloop] at hok
          simp at hok
      | ok r =>
          rw [hloop] at hok
          injection hok with hok
          injection hok with htot hok
          injection hok with hc2 hok
          injection hok with hh2 hok
          injection hok with hrdy hcont2
          subst htot hc2 hh2 hrdy hcont2
          obtain ⟨tc, th, hfc, hfh, h1, h2, h3, h4, -⟩ :=
            readinessLoop_ok_spec env.ticks env.fuel 0 0 0 r hloop
          refine ⟨hcont0, ?_, ?_, ?_, ?_, ?_, h4⟩
          · rw [h1]; exact hc0 tc
          · rw [h2]; exact hh0 th
          · rw [h3]; exact hcont (max tc th)
          · rw [h1, h3]; exact hcm tc (max tc th) (Nat.le_max_left tc th)
          · rw [h2, h3]; exact hhm th (max tc th) (Nat.le_max_right tc th)

/-- Witness for C10 at a concrete successful measurement: both signals
pass at the first tick and the measurement returns (total 2, consul 1,
health 1, ready, container start 0). -/
theorem startupTimings_consistent_witness :
    0 ≤ (0 : ℚ) ∧ 0 ≤ (1 : ℚ) ∧ 0 ≤ (1 : ℚ) ∧ (0 : ℚ) ≤ 2 ∧
      (1 : ℚ) ≤ 2 ∧ (1 : ℚ) ≤ 2 ∧ true = true :=
  startupTimings_consistent witnessStartupEnv
    (by norm_num [witnessStartupEnv])
    (fun t => by norm_num [witnessStartupEnv])
    (fun t => by norm_num [witnessStartupEnv])
    (fun t => by norm_num [witnessStartupEnv])
    (fun t u _ => by norm_num [witnessStartupEnv])
    (fun t u _ => by norm_num [witnessStartupEnv])
    2 1 1 true 0 rfl

/-- C5 counterexample: the claim that the per-request health-probe
client timeout is strictly shorter than the polling tick in both
harnesses is false — in the Failure harness the timeout (1 s) equals
the tick (1 s), and in the StartupTime harness the timeout (5 s)
exceeds the tick (1 s). -/
theorem healthTimeout_shorter_than_tick_cex :
    ¬(failureHealthClientTimeoutSeconds < failurePollTickSeconds ∧
      startupHealthClientTimeoutSeconds < startupPollTickSeconds) := by
  decide

/-- C5 amended: the Failure harness health-probe client timeout equals
its polling tick (both 1 s), and the StartupTime harness timeout (5 s)
exceeds its tick (1 s); in neither harness is it strictly shorter. -/
theorem healthTimeout_vs_tick :
    failureHealthClientTimeoutSeconds = failurePollTickSeconds ∧
      startupPollTickSeconds < startupHealthClientTimeoutSeconds := by
  decide

/-- C7: if the pre-flight registry liveness query fails or returns a
non-200 status, main exits with a non-zero code (log.Fatalf) before any
service directory is resolved, before any lifecycle command runs,
before any report file is created, and before any trial iteration. -/
theorem preflightFailure_fatal (consul : Option Nat) (resolveOk : Bool)
    (createOk : Nat → Bool) (hf : preflightFails consul = true) :
    (mainEffects consul resolveOk createOk).1 ≠ 0 ∧
      (mainEffects consul resolveOk createOk).2 = [] := by
  simp [mainEffects, hf]

/-- Witness for C7: a transport error at the pre-flight check. -/
theorem preflightFailure_fatal_witness :
    (mainEffects none true (fun _ => true)).1 ≠ 0 ∧
      (mainEffects none true (fun _ => true)).2 = [] :=
  preflightFailure_fatal none true (fun _ => true) rfl

/-- C4 counterexample: with report creation failing at trial 1, the
claim would have trials 2..5 still execute, but main returns at once:
the run's effects stop at directory resolution and trial 2 never
writes rows. -/
theorem reportFailure_aborts_run_cex :
    (mainEffects (some 200) true (fun i => !(i == 1))).2 =
        [MainEffect.resolveDirs] ∧
      MainEffect.trialRows 2 ∉
        (mainEffects (some 200) true (fun i => !(i == 1))).2 := by
  decide

/-- C4 amended: if creating a trial's report file fails, no output is
produced for that trial, and the orchestrator does not proceed to the
next trial — it abandons the whole remaining run: the executed trials
are exactly the longest prefix of the iteration range whose report
creation succeeds. -/
theorem reportFailure_aborts_run (createOk : Nat → Bool) :
    ∀ (k i : Nat),
      trialLoopEffects k i createOk =
        ((List.range' i k).takeWhile createOk).flatMap
          (fun j => [.createReport j, .trialRows j, .shutdownAll j]) := by
  intro k
  induction k with
  | zero => intro i; rfl
  | succ k ih =>
      intro i
      rw [trialLoopEffects, List.range'_succ]
      cases hc : createOk i with
      | true => simp [List.takeWhile_cons, hc, ih (i + 1)]
      | false => simp [List.takeWhile_cons, hc]

/-- C8 counterexample: in the Failure harness measurement at the
concrete directory dirA, the process working directory is mutated
(os.Chdir) and the plain up command runs with no explicit directory on
the command — the working directory is not passed as an argument. -/
theorem lifecycleDir_not_explicit_cex :
    LifecycleEffect.chdir "dirA" ∈
        measureFailureEffects "svc" "dirA" "cur" true true ∧
      LifecycleEffect.run composeUp none ∈
        measureFailureEffects "svc" "dirA" "cur" true true := by
  decide

/-- C8 amended: only shutdownAllServices passes the working directory
explicitly on each command (cmd.Dir = dir) and never touches the
process working directory; the measurement path instead mutates the
process working directory with os.Chdir and runs its compose commands
with no explicit directory (and the resolved service list and original
directory are package-level globals, not threaded parameters). -/
theorem lifecycleDir_threading (dirs : List String) (name dir cur : String) :
    (shutdownAllServicesEffects dirs).all runsWithExplicitDir = true ∧
      (shutdownAllServicesEffects dirs).all
        (fun e => !isChdirEffect e) = true ∧
      (measureFailureEffects name dir cur true true).any
        isChdirEffect = true ∧
      (measureFailureEffects name dir cur true true).any
        (fun e => !runsWithExplicitDir e) = true := by
  refine ⟨?_, ?_, ?_, ?_⟩
  · rw [List.all_eq_true]
    intro e he
    simp only [shutdownAllServicesEffects, List.mem_map] at he
    obtain ⟨d, -, rfl⟩ := he
    rfl
  · rw [List.all_eq_true]
    intro e he
    simp only [shutdownAllServicesEffects, List.mem_map] at he
    obtain ⟨d, -, rfl⟩ := he
    rfl
  · rfl
  · rfl

/-- C9 counterexample: in the Failure harness measurement trace, the
clock is started (startTime := time.Now()) at position 3, strictly
before the scaled up command runs to completion at position 4 — so the
clock starts at that command's issuance, not at its completion as the
claim states. -/
theorem failureClock_before_scale_cex :
    (measureFailureEffects "svc" "d" "c" true true)[3]? =
        some LifecycleEffect.clockStart ∧
      (measureFailureEffects "svc" "d" "c" true true)[4]? =
        some (LifecycleEffect.run (composeUpScale "svc") none) := by
  decide

/-- C9 amended: within a Failure-harness measurement every external
command issued is a docker-compose up, never a down or stop — the
service is not actually stopped before its recovery is timed; the plain
up runs right after the fixed 5-second sleep, and the clock starts at
the issuance of the scaled up, immediately before that command runs. -/
theorem failureMeasurement_commands (name dir cur : String)
    (chdirOk upOk : Bool) :
    (measureFailureEffects name dir cur chdirOk upOk).all
        (fun e => !isStopOrDownCmd e) = true ∧
      (measureFailureEffects name dir cur chdirOk upOk).all
        (fun e => !isRunEffect e || isUpCmd e) = true ∧
      (chdirOk = true →
        (measureFailureEffects name dir cur chdirOk upOk)[1]? =
            some (.sleep 5) ∧
          (measureFailureEffects name dir cur chdirOk upOk)[2]? =
            some (.run composeUp none)) ∧
      (chdirOk = true → upOk = true →
        (measureFailureEffects name dir cur chdirOk upOk)[3]? =
            some .clockStart ∧
          (measureFailureEffects name dir cur chdirOk upOk)[4]? =
            some (.run (composeUpScale name) none)) := by
  cases chdirOk <;> cases upOk <;>
    simp [measureFailureEffects, isStopOrDownCmd, isRunEffect, isUpCmd,
      composeUp, composeUpScale]

/-- Witness for C9 on the success path of a concrete measurement:
sleep then plain up at positions 1 and 2, clock start then scaled up at
positions 3 and 4. -/
theorem failureMeasurement_commands_witness :
    ((measureFailureEffects "svc" "d" "c" true true)[1]? =
        some (LifecycleEffect.sleep 5) ∧
      (measureFailureEffects "svc" "d" "c" true true)[2]? =
        some (LifecycleEffect.run composeUp none)) ∧
    ((measureFailureEffects "svc" "d" "c" true true)[3]? =
        some LifecycleEffect.clockStart ∧
      (measureFailureEffects "svc" "d" "c" true true)[4]? =
        some (LifecycleEffect.run (composeUpScale "svc") none)) :=
  ⟨(failureMeasurement_commands "svc" "d" "c" true true).2.2.1 rfl,
   (failureMeasurement_commands "svc" "d" "c" true true).2.2.2 rfl rfl⟩
